import Mathlib

/-!
# Verification of the docfactory-backend template & version consistency engine

Shallow embedding of `internal/templates` (models.go, repository.go,
service.go): the data model, the in-memory repository (`inMemoryRepository`)
and the orchestration layer (`TemplateService`), together with proofs and
refutations of the specification's claims.

Modelling conventions:
* Go `int` becomes `Int`; `time.Time` becomes a `Nat` tick supplied by a
  logical clock threaded through the system state (`Sys.clock`); `*time.Time`
  becomes `Option Nat`.
* Go maps become association lists (`List (String × _)`) with `mapGet` /
  `mapSet`; a read of a missing key in `versions` yields `[]` as in Go.
* The pluggable unique-identifier generator `newID` (an external collaborator
  in the source, not defined under the repository) is modelled by a counter
  `Sys.nextID` rendered through `mkID`.
* Fallible Go functions returning `(T, error)` become `Except RepoError _`;
  an error result carries no state, matching the fact that the Go code
  returns before mutating (or mutates nothing before the failing check).
* Go byte-length `len` on strings becomes `goLen` (UTF-8 byte size);
  `strings.TrimSpace` becomes `goTrimSpace` (Latin-1 portion of
  `unicode.IsSpace`); `strings.ToLower` becomes `goToLower` (ASCII folding);
  `strings.Contains` becomes `goContains`.
* `sort.Slice` in `ListTemplates` is an unstable sort; it is modelled by a
  deterministic insertion sort on the same ordering key (`UpdatedAt`
  descending), which realises one of the permutations Go may produce.
* A Go slice expression `result[start:end]` is modelled by `goSlice`, which
  returns `none` exactly when Go would panic (bounds outside
  `0 ≤ start ≤ end ≤ len`).
-/

/-- Go string byte length `len(s)`. -/
def goLen (s : String) : Nat := s.utf8ByteSize

/-- Modelled from the Go standard library: `unicode.IsSpace` restricted to
Latin-1 (the runes the repository's inputs use); the White_Space runes above
U+00FF are not modelled. -/
def goIsSpace (c : Char) : Bool :=
  c = '\t' ∨ c = '\n' ∨ c = '\x0b' ∨ c = '\x0c' ∨ c = '\r' ∨ c = ' ' ∨
  c = '\x85' ∨ c = '\xa0'

/-- Modelled from the Go standard library: `strings.TrimSpace`. -/
def goTrimSpace (s : String) : String :=
  ⟨((s.toList.dropWhile goIsSpace).reverse.dropWhile goIsSpace).reverse⟩

/-- Modelled from the Go standard library: `strings.ToLower` (ASCII folding). -/
def goToLower (s : String) : String := ⟨s.toList.map Char.toLower⟩

/-- Modelled from the Go standard library: `strings.Contains`. -/
def goContains (s sub : String) : Bool :=
  s.toList.tails.any (fun t => sub.toList.isPrefixOf t)

/-- Association-list read, modelling a Go map read `m[k]`. -/
def mapGet {β : Type} (m : List (String × β)) (k : String) : Option β :=
  match m with
  | [] => none
  | (k', v) :: rest => if k' = k then some v else mapGet rest k

/-- Association-list write, modelling a Go map assignment `m[k] = v`. -/
def mapSet {β : Type} (m : List (String × β)) (k : String) (v : β) :
    List (String × β) :=
  match m with
  | [] => [(k, v)]
  | (k', v') :: rest =>
      if k' = k then (k, v) :: rest else (k', v') :: mapSet rest k v

/-- `Template` (models.go): the templates table structure.  `DocumentType`,
`PageSize` and `Orientation` are Go named string types, kept as `String`. -/
structure Template where
  templateID : String
  tenantID : String
  name : String
  description : String
  documentType : String
  pageSize : String
  orientation : String
  jsonSchemaURL : String
  thumbnailURL : String
  version : Int
  createdBy : String
  updatedBy : String
  createdAt : Nat
  updatedAt : Nat
  deletedAt : Option Nat
  documentsCount : Int
  lastUsedAt : Option Nat
deriving DecidableEq, Repr

/-- `TemplateVersion` (models.go): the template_versions table structure. -/
structure TemplateVersion where
  versionID : String
  templateID : String
  versionNumber : Int
  changeSummary : String
  jsonSchemaURL : String
  createdBy : String
  createdAt : Nat
  isCurrent : Bool
deriving DecidableEq, Repr

/-- The error taxonomy of models.go: `ErrNotFound`, `ErrConflict`,
`ErrInvalidInput` (the latter always wrapped with a message by callers), plus
bare validation errors (the `errors.New` messages `Validate` returns, which
are not `ErrInvalidInput`). -/
inductive RepoError where
  | notFound : RepoError
  | conflict : RepoError
  | invalidInput : String → RepoError
  | validationMsg : String → RepoError
deriving DecidableEq, Repr

/-- `Template.Validate` (models.go): `none` means the template is accepted,
`some msg` is the error message returned.  Note the upper bound on the name
checks `len(t.Name)`, the untrimmed length. -/
def Template.validate (t : Template) : Option String :=
  if t.tenantID = "" then some "tenant_id is required"
  else if goLen (goTrimSpace t.name) < 3 ∨ goLen t.name > 100 then
    some "name must be between 3 and 100 characters"
  else if goLen t.description > 500 then
    some "description must be <= 500 characters"
  else if ¬(t.documentType = "warranty" ∨ t.documentType = "instruction" ∨
      t.documentType = "certificate" ∨ t.documentType = "label") then
    some "document_type is invalid"
  else if ¬(t.pageSize = "A4" ∨ t.pageSize = "A5" ∨ t.pageSize = "Letter") then
    some "page_size is invalid"
  else if ¬(t.orientation = "portrait" ∨ t.orientation = "landscape") then
    some "orientation is invalid"
  else if t.jsonSchemaURL = "" then some "json_schema_url is required"
  else if t.createdBy = "" then some "created_by is required"
  else if t.updatedBy = "" then some "updated_by is required"
  else none

/-- `TemplateVersion.Validate` (models.go). -/
def TemplateVersion.validate (tv : TemplateVersion) : Option String :=
  if tv.templateID = "" then some "template_id is required"
  else if tv.versionNumber ≤ 0 then some "version_number must be positive"
  else if tv.jsonSchemaURL = "" then some "json_schema_url is required"
  else if tv.createdBy = "" then some "created_by is required"
  else none

/-- `ListOptions` (repository.go). -/
structure ListOptions where
  tenantID : String
  search : String
  documentType : String
  includeDeleted : Bool
  limit : Int
  offset : Int
deriving DecidableEq, Repr

/-- `DuplicateOptions` (repository.go). -/
structure DuplicateOptions where
  createdBy : String
  updatedBy : String
  copyVersions : Bool
  nameOverride : String
  descriptionOverride : String
deriving DecidableEq, Repr

/-- `VersionComparison` (repository.go). -/
structure VersionComparison where
  templateID : String
  left : TemplateVersion
  right : TemplateVersion
  summary : String
deriving DecidableEq, Repr

/-- The two maps of `inMemoryRepository` (service.go): `templates` keyed by
template identifier, `versions` keyed by owning template identifier. -/
structure RepoState where
  templates : List (String × Template)
  versions : List (String × List TemplateVersion)
deriving DecidableEq, Repr

/-- Read `r.templates[templateID]`. -/
def findTemplate (r : RepoState) (templateID : String) : Option Template :=
  mapGet r.templates templateID

/-- Write `r.templates[tpl.TemplateID] = tpl`. -/
def putTemplate (r : RepoState) (tpl : Template) : RepoState :=
  { r with templates := mapSet r.templates tpl.templateID tpl }

/-- Read `r.versions[templateID]` (a missing key reads as nil). -/
def getVersions (r : RepoState) (templateID : String) : List TemplateVersion :=
  (mapGet r.versions templateID).getD []

/-- Write `r.versions[templateID] = l`. -/
def setVersions (r : RepoState) (templateID : String)
    (l : List TemplateVersion) : RepoState :=
  { r with versions := mapSet r.versions templateID l }

/-- `inMemoryRepository.GetTemplate` (service.go:239). -/
def repoGetTemplate (r : RepoState) (tenantID templateID : String) :
    Except RepoError Template :=
  match findTemplate r templateID with
  | none => .error .notFound
  | some tpl =>
      if tpl.tenantID ≠ tenantID then .error .notFound else .ok tpl

/-- `inMemoryRepository.CreateTemplate` (service.go:250). -/
def repoCreateTemplate (r : RepoState) (tpl : Template) :
    Except RepoError (Template × RepoState) :=
  match findTemplate r tpl.templateID with
  | some _ => .error .conflict
  | none => .ok (tpl, { r with templates := mapSet r.templates tpl.templateID tpl })

/-- `inMemoryRepository.UpdateTemplate` (service.go:261). -/
def repoUpdateTemplate (r : RepoState) (tpl : Template) :
    Except RepoError (Template × RepoState) :=
  match findTemplate r tpl.templateID with
  | none => .error .notFound
  | some existing =>
      if existing.tenantID ≠ tpl.tenantID then .error .notFound
      else .ok (tpl, putTemplate r tpl)

/-- `inMemoryRepository.SoftDeleteTemplate` (service.go:273); `now` is the
value of its `time.Now().UTC()` call. -/
def repoSoftDeleteTemplate (r : RepoState) (tenantID templateID : String)
    (now : Nat) : Except RepoError RepoState :=
  match findTemplate r templateID with
  | none => .error .notFound
  | some tpl =>
      if tpl.tenantID ≠ tenantID then .error .notFound
      else .ok (putTemplate r { tpl with deletedAt := some now })

/-- `inMemoryRepository.RestoreTemplate` (service.go:286). -/
def repoRestoreTemplate (r : RepoState) (tenantID templateID : String) :
    Except RepoError (Template × RepoState) :=
  match findTemplate r templateID with
  | none => .error .notFound
  | some tpl =>
      if tpl.tenantID ≠ tenantID then .error .notFound
      else
        let tpl' := { tpl with deletedAt := none }
        .ok (tpl', putTemplate r tpl')

/-- `inMemoryRepository.ListVersions` (service.go:347). -/
def repoListVersions (r : RepoState) (tenantID templateID : String) :
    Except RepoError (List TemplateVersion) :=
  match findTemplate r templateID with
  | none => .error .notFound
  | some tpl =>
      if tpl.tenantID ≠ tenantID then .error .notFound
      else .ok (getVersions r templateID)

/-- `inMemoryRepository.CreateVersion` (service.go:358): tenant check, then
validation, then the `is_current`-clearing loop, then the append. -/
def repoCreateVersion (r : RepoState) (tenantID : String)
    (version : TemplateVersion) :
    Except RepoError (TemplateVersion × RepoState) :=
  match findTemplate r version.templateID with
  | none => .error .notFound
  | some tpl =>
      if tpl.tenantID ≠ tenantID then .error .notFound
      else
        match version.validate with
        | some msg => .error (.validationMsg msg)
        | none =>
            let cleared := (getVersions r version.templateID).map
              (fun e => { e with isCurrent := false })
            .ok (version, setVersions r version.templateID (cleared ++ [version]))

/-- `inMemoryRepository.RestoreVersion` (service.go:376): finds the first
entry with the requested number, copies its schema URL onto the live
template, bumps the version counter, and appends a copy of the found entry
with `IsCurrent = true`, the new number and the new timestamp.  Note the
source neither clears `is_current` on the other entries nor assigns a fresh
`VersionID` to the appended copy. -/
def repoRestoreVersion (r : RepoState) (tenantID templateID : String)
    (versionNumber : Int) (now : Nat) :
    Except RepoError (TemplateVersion × RepoState) :=
  match findTemplate r templateID with
  | none => .error .notFound
  | some tpl =>
      if tpl.tenantID ≠ tenantID then .error .notFound
      else
        match (getVersions r templateID).find?
            (fun e => e.versionNumber = versionNumber) with
        | none => .error .notFound
        | some restored =>
            let tpl' := { tpl with
              jsonSchemaURL := restored.jsonSchemaURL,
              version := tpl.version + 1,
              updatedAt := now,
              updatedBy := restored.createdBy }
            let clone := { restored with
              isCurrent := true,
              versionNumber := tpl'.version,
              createdAt := tpl'.updatedAt }
            .ok (clone, setVersions (putTemplate r tpl') templateID
              (getVersions r templateID ++ [clone]))

/-- The accumulator step of `CompareVersions`' scan (service.go:415-425): a
`switch` that takes the `left` case first, so when `left = right` only the
left slot is ever filled, and a later match overwrites an earlier one. -/
def compareScan (versions : List TemplateVersion) (left right : Int) :
    Option TemplateVersion × Option TemplateVersion :=
  versions.foldl
    (fun lr v =>
      if v.versionNumber = left then (some v, lr.2)
      else if v.versionNumber = right then (lr.1, some v)
      else lr)
    (none, none)

/-- `inMemoryRepository.CompareVersions` (service.go:407). -/
def repoCompareVersions (r : RepoState) (tenantID templateID : String)
    (left right : Int) : Except RepoError VersionComparison :=
  match findTemplate r templateID with
  | none => .error .notFound
  | some tpl =>
      if tpl.tenantID ≠ tenantID then .error .notFound
      else
        match compareScan (getVersions r templateID) left right with
        | (some lv, some rv) =>
            .ok { templateID := tpl.templateID, left := lv, right := rv,
                  summary := "left schema: " ++ lv.jsonSchemaURL ++
                    ", right schema: " ++ rv.jsonSchemaURL }
        | _ => .error .notFound

/-- List the values of the `templates` map, in the association list's order
(Go map iteration order is unspecified; this realises one admissible order). -/
def templateValues (r : RepoState) : List Template :=
  r.templates.map (fun p => p.2)

/-- The keep-condition of the filter loop in `ListTemplates` /
`CountTemplates` (service.go:187-201): the negation of the four `continue`
guards, with `search := strings.ToLower(strings.TrimSpace(opt.Search))`. -/
def matchesOpt (opt : ListOptions) (t : Template) : Bool :=
  let search := goToLower (goTrimSpace opt.search)
  t.tenantID = opt.tenantID &&
  (opt.includeDeleted || t.deletedAt = none) &&
  (opt.documentType = "" || t.documentType = opt.documentType) &&
  (search = "" || goContains (goToLower t.name) search ||
    goContains (goToLower t.description) search)

/-- Insert into a list sorted by `UpdatedAt` descending. -/
def insertByUpdatedDesc (t : Template) : List Template → List Template
  | [] => [t]
  | h :: rest =>
      if h.updatedAt > t.updatedAt then h :: insertByUpdatedDesc t rest
      else t :: h :: rest

/-- The `sort.Slice` call of `ListTemplates` (service.go:202-204): sort by
`UpdatedAt` descending (`After`).  `sort.Slice` is unstable, so any ordering
of ties is admissible; insertion sort realises one of them. -/
def sortByUpdatedDesc : List Template → List Template
  | [] => []
  | h :: rest => insertByUpdatedDesc h (sortByUpdatedDesc rest)

/-- The filtered, sorted result list of `ListTemplates` before pagination. -/
def listMatching (r : RepoState) (opt : ListOptions) : List Template :=
  sortByUpdatedDesc ((templateValues r).filter (matchesOpt opt))

/-- A Go slice expression `l[start:end]`: defined when
`0 ≤ start ≤ end ≤ len(l)`, a panic (`none`) otherwise. -/
def goSlice {α : Type} (l : List α) (start stop : Int) : Option (List α) :=
  if 0 ≤ start ∧ start ≤ stop ∧ stop ≤ (l.length : Int) then
    some ((l.drop start.toNat).take (stop - start).toNat)
  else none

/-- The pagination tail of `ListTemplates` (service.go:205-213): early empty
page when `start > len(result)`, otherwise `end` clamped to `len(result)`
when `limit ≤ 0` or it overshoots, then the slice `result[start:end]`. -/
def paginate (result : List Template) (offset limit : Int) :
    Option (List Template) :=
  if offset > (result.length : Int) then some []
  else
    let stop := offset + limit
    let stop := if limit ≤ 0 ∨ stop > (result.length : Int) then
      (result.length : Int) else stop
    goSlice result offset stop

/-- `inMemoryRepository.ListTemplates` (service.go:182): `none` models the
slice-bounds panic that a negative offset provokes. -/
def repoListTemplates (r : RepoState) (opt : ListOptions) :
    Option (List Template) :=
  paginate (listMatching r opt) opt.offset opt.limit

/-- `inMemoryRepository.CountTemplates` (service.go:216). -/
def repoCountTemplates (r : RepoState) (opt : ListOptions) : Nat :=
  ((templateValues r).filter (matchesOpt opt)).length

/-- The system state threaded through the service: the repository plus the
external collaborators' state — the unique-identifier generator (modelled as
a counter) and the clock supplying `time.Now().UTC()`. -/
structure Sys where
  repo : RepoState
  nextID : Nat
  clock : Nat
deriving DecidableEq, Repr

/-- The pluggable unique-identifier generator `newID`: the `n`-th generated
identifier. -/
def mkID (n : Nat) : String := "id-" ++ toString n

/-- The empty system: fresh `inMemoryRepository`, generator and clock at 0. -/
def sysInit : Sys := { repo := { templates := [], versions := [] }, nextID := 0, clock := 0 }

/-- `TemplateService.CreateTemplate` (service.go:32): assign identifier and
timestamps, set version 1, validate, persist the template, then persist the
initial history entry marked current.  Each `newID()` call consumes one
counter value; the single `time.Now().UTC()` call reads the clock, which
advances once per operation. -/
def serviceCreateTemplate (tpl0 : Template) (s : Sys) :
    Except RepoError (Template × Sys) :=
  let now := s.clock
  let tpl := { tpl0 with
    templateID := mkID s.nextID, createdAt := now, updatedAt := now,
    version := 1 }
  match tpl.validate with
  | some msg => .error (.validationMsg ("validate template: " ++ msg))
  | none =>
      match repoCreateTemplate s.repo tpl with
      | .error e => .error e
      | .ok (created, r1) =>
          let version : TemplateVersion := {
            versionID := mkID (s.nextID + 1),
            templateID := tpl.templateID,
            versionNumber := tpl.version,
            jsonSchemaURL := tpl.jsonSchemaURL,
            changeSummary := "initial version",
            createdBy := tpl.createdBy,
            createdAt := now,
            isCurrent := true }
          match repoCreateVersion r1 tpl.tenantID version with
          | .error e => .error e
          | .ok (_, r2) =>
              .ok (created, { repo := r2, nextID := s.nextID + 2, clock := s.clock + 1 })

/-- `TemplateService.UpdateTemplate` (service.go:62): load (Not-Found
propagates), reject soft-deleted with wrapped `ErrInvalidInput`, apply the
caller-supplied mutation, bump the version, restamp, re-validate, persist,
then append the history entry marked current. -/
def serviceUpdateTemplate (tenantID templateID : String)
    (mutate : Template → Except RepoError Template)
    (updatedBy changeSummary : String) (s : Sys) :
    Except RepoError (Template × Sys) :=
  match repoGetTemplate s.repo tenantID templateID with
  | .error e => .error e
  | .ok tpl =>
      if tpl.deletedAt ≠ none then .error (.invalidInput "template is deleted")
      else
        match mutate tpl with
        | .error e => .error e
        | .ok m =>
            let tpl' := { m with
              version := m.version + 1, updatedBy := updatedBy,
              updatedAt := s.clock }
            match tpl'.validate with
            | some msg => .error (.validationMsg msg)
            | none =>
                match repoUpdateTemplate s.repo tpl' with
                | .error e => .error e
                | .ok (updated, r1) =>
                    let version : TemplateVersion := {
                      versionID := mkID s.nextID,
                      templateID := tpl'.templateID,
                      versionNumber := tpl'.version,
                      jsonSchemaURL := tpl'.jsonSchemaURL,
                      changeSummary := changeSummary,
                      createdBy := updatedBy,
                      createdAt := tpl'.updatedAt,
                      isCurrent := true }
                    match repoCreateVersion r1 tenantID version with
                    | .error e => .error e
                    | .ok (_, r2) =>
                        .ok (updated, { repo := r2, nextID := s.nextID + 1, clock := s.clock + 1 })

/-- `inMemoryRepository.DuplicateTemplate` (service.go:299): clone with fresh
identifier (`id1`), reset lifecycle fields, version 1, name defaulted to
`"<source name> Copy"` unless overridden, validate, conflict check, insert,
then append the synthetic "duplicated from" entry (identifier `id2`) directly
to the versions map, marked current. -/
def repoDuplicateTemplate (r : RepoState) (tenantID templateID : String)
    (opt : DuplicateOptions) (id1 id2 : String) (now : Nat) :
    Except RepoError (Template × RepoState) :=
  match findTemplate r templateID with
  | none => .error .notFound
  | some tpl =>
      if tpl.tenantID ≠ tenantID then .error .notFound
      else
        let clone := { tpl with
          templateID := id1, createdAt := now, updatedAt := now,
          createdBy := opt.createdBy, updatedBy := opt.updatedBy,
          deletedAt := none, documentsCount := 0, lastUsedAt := none,
          version := 1,
          name := if opt.nameOverride ≠ "" then opt.nameOverride
            else tpl.name ++ " Copy",
          description := if opt.descriptionOverride ≠ "" then
            opt.descriptionOverride else tpl.description }
        match clone.validate with
        | some msg => .error (.validationMsg msg)
        | none =>
            match findTemplate r clone.templateID with
            | some _ => .error .conflict
            | none =>
                let version : TemplateVersion := {
                  versionID := id2,
                  templateID := clone.templateID,
                  versionNumber := clone.version,
                  jsonSchemaURL := clone.jsonSchemaURL,
                  changeSummary := "duplicated from " ++ tpl.templateID,
                  createdBy := opt.updatedBy,
                  createdAt := now,
                  isCurrent := true }
                let r1 := putTemplate r clone
                .ok (clone, setVersions r1 clone.templateID
                  (getVersions r1 clone.templateID ++ [version]))

/-- The copy loop of `TemplateService.DuplicateTemplate` (service.go:110-119):
each source entry is re-keyed to the clone, given a fresh identifier, the
entry that was current is renumbered to the clone's version, and the result
is pushed through `CreateVersion`. -/
def copyVersionsLoop (tenantID : String) (tpl : Template)
    (vs : List TemplateVersion) (r : RepoState) (nid : Nat) :
    Except RepoError (RepoState × Nat) :=
  match vs with
  | [] => .ok (r, nid)
  | v :: rest =>
      let v' := { v with
        templateID := tpl.templateID,
        versionID := mkID nid,
        versionNumber := if v.isCurrent then tpl.version else v.versionNumber }
      match repoCreateVersion r tenantID v' with
      | .error e => .error e
      | .ok (_, r') => copyVersionsLoop tenantID tpl rest r' (nid + 1)

/-- `TemplateService.DuplicateTemplate` (service.go:100): delegate to the
repository, then, when `copy_versions` is set, re-materialise the source's
history under the clone via `ListVersions` + the copy loop. -/
def serviceDuplicateTemplate (tenantID templateID : String)
    (opt : DuplicateOptions) (s : Sys) : Except RepoError (Template × Sys) :=
  match repoDuplicateTemplate s.repo tenantID templateID opt
      (mkID s.nextID) (mkID (s.nextID + 1)) s.clock with
  | .error e => .error e
  | .ok (tpl, r1) =>
      if opt.copyVersions then
        match repoListVersions r1 tenantID templateID with
        | .error e => .error e
        | .ok versions =>
            match copyVersionsLoop tenantID tpl versions r1 (s.nextID + 2) with
            | .error e => .error e
            | .ok (r2, nid2) =>
                .ok (tpl, { repo := r2, nextID := nid2, clock := s.clock + 1 })
      else .ok (tpl, { repo := r1, nextID := s.nextID + 2, clock := s.clock + 1 })

/-- One call to `TemplateService.UpdateTemplate`: the caller-supplied
mutation closure and the accompanying metadata. -/
structure UpdateCall where
  mutate : Template → Except RepoError Template
  updatedBy : String
  changeSummary : String

/-- A mutation closure that, whenever it succeeds, leaves the version counter
and the template identifier unchanged (the reading of "Updates on it" in the
spec: the mutation edits fields of that template, not its identity or its
counter). -/
def versionPreserving (f : Template → Except RepoError Template) : Prop :=
  ∀ t t', f t = .ok t' → t'.version = t.version ∧ t'.templateID = t.templateID

/-- Run a sequence of `UpdateTemplate` calls against one template, stopping
at the first failure. -/
def runUpdates (tenantID templateID : String) (calls : List UpdateCall)
    (s : Sys) : Except RepoError Sys :=
  match calls with
  | [] => .ok s
  | c :: rest =>
      match serviceUpdateTemplate tenantID templateID c.mutate c.updatedBy
          c.changeSummary s with
      | .error e => .error e
      | .ok (_, s') => runUpdates tenantID templateID rest s'

/-- No orphan histories: a key absent from the `templates` map has no entry
list in the `versions` map.  This holds of the fresh repository and is
preserved by every operation (each producer of a `versions` entry first
checks the template exists); it is the only fact about the starting state the
Create/Update theorems need. -/
def NoOrphanHistories (r : RepoState) : Prop :=
  ∀ k, findTemplate r k = none → getVersions r k = []

/-- The per-template consistency invariant after `n` accepted mutations: the
template is stored under its identifier with `version = n`, its history
consists of superseded entries followed by a single current entry numbered
`n`, and the history's version numbers are exactly `1, …, n` in order. -/
def TplInv (templateID tenantID : String) (n : Nat) (s : Sys) : Prop :=
  ∃ t pre last, findTemplate s.repo templateID = some t ∧
    t.templateID = templateID ∧ t.tenantID = tenantID ∧
    t.version = (n : Int) ∧
    getVersions s.repo templateID = pre ++ [last] ∧
    (∀ e ∈ pre, e.isCurrent = false) ∧
    last.isCurrent = true ∧ last.versionNumber = (n : Int) ∧
    (getVersions s.repo templateID).map (fun e => e.versionNumber) =
      (List.range n).map (fun (i : Nat) => (i : Int) + 1)

/-- Extract the system of a successful service call (dummy on error). -/
def okSysOf (r : Except RepoError (Template × Sys)) : Sys :=
  match r with
  | .ok (_, s) => s
  | .error _ => sysInit

/-- Extract the template of a successful service call (dummy on error). -/
def okTplOf (r : Except RepoError (Template × Sys)) : Option Template :=
  match r with
  | .ok (t, _) => some t
  | .error _ => none

/-- Extract the final system of a successful update run (dummy on error). -/
def okRunOf (r : Except RepoError Sys) : Sys :=
  match r with
  | .ok s => s
  | .error _ => sysInit

/-- A concrete valid create input (the spec's §8 scenario): tenant `t1`,
name `Warranty EU`, warranty/A4/portrait, schema `s3://schemas/v1.json`. -/
def sampleInput : Template := {
  templateID := "", tenantID := "t1", name := "Warranty EU",
  description := "", documentType := "warranty", pageSize := "A4",
  orientation := "portrait", jsonSchemaURL := "s3://schemas/v1.json",
  thumbnailURL := "", version := 0, createdBy := "u1", updatedBy := "u1",
  createdAt := 0, updatedAt := 0, deletedAt := none, documentsCount := 0,
  lastUsedAt := none }

/-- The state after creating `sampleInput` in the fresh system: template
`id-0` at version 1, history `[entry id-1, number 1, current]`. -/
def sys1 : Sys := okSysOf (serviceCreateTemplate sampleInput sysInit)

/-- A concrete mutation closure: rename and swap the schema URL. -/
def renameMut : Template → Except RepoError Template :=
  fun t => .ok { t with name := "Warranty EU v2",
                        jsonSchemaURL := "s3://schemas/v2.json" }

/-- The concrete update call wrapping `renameMut`. -/
def renameCall : UpdateCall :=
  { mutate := renameMut, updatedBy := "u2", changeSummary := "rename" }

/-- The state after updating template `id-0` once: version 2, history
`[number 1 (superseded), number 2 (current)]`. -/
def sys2 : Sys :=
  okSysOf (serviceUpdateTemplate "t1" "id-0" renameMut "u2" "rename" sys1)

/-- Concrete duplication options requesting a full history copy. -/
def dupOpt : DuplicateOptions := {
  createdBy := "u3", updatedBy := "u3", copyVersions := true,
  nameOverride := "", descriptionOverride := "" }

/-- A concrete one-template repository: template `T` of tenant `t1` with a
single current history entry numbered 1. -/
def cT : Template := { sampleInput with templateID := "T", version := 1 }

/-- The single current history entry of `cT`. -/
def cE1 : TemplateVersion := {
  versionID := "V1", templateID := "T", versionNumber := 1,
  changeSummary := "initial version", jsonSchemaURL := "s3://schemas/v1.json",
  createdBy := "u1", createdAt := 0, isCurrent := true }

/-- The concrete repository state holding `cT` and `cE1`. -/
def cRepo : RepoState := { templates := [("T", cT)], versions := [("T", [cE1])] }

/-- A valid version input for `T` that is NOT marked current — the shape the
copy-versions loop of `TemplateService.DuplicateTemplate` feeds to
`CreateVersion` for each superseded source entry. -/
def cV2 : TemplateVersion := {
  versionID := "V2", templateID := "T", versionNumber := 2,
  changeSummary := "copied entry", jsonSchemaURL := "s3://schemas/v1.json",
  createdBy := "u1", createdAt := 1, isCurrent := false }

/-- `sys1` with template `id-0` soft-deleted at tick 10. -/
def sysDel : RepoState :=
  match repoSoftDeleteTemplate sys1.repo "t1" "id-0" 10 with
  | .ok r => r
  | .error _ => sys1.repo

/-- The soft-deleted template stored under `id-0` in `sysDel`. -/
def sysDelTpl : Template :=
  match findTemplate sysDel "id-0" with
  | some t => t
  | none => cT

/-- A name of 101 bytes whose trimmed length is 3: `"abc"` and 98 spaces. -/
def paddedName : String := "abc" ++ ⟨List.replicate 98 ' '⟩

/-- `cT` with the padded name: every field other than the name satisfies
validation. -/
def paddedTpl : Template := { cT with name := paddedName }

/-- Concrete list options with a negative offset and a matching template in
`cRepo`: the input on which `ListTemplates` hits the slice-bounds panic. -/
def negOffsetOpt : ListOptions := {
  tenantID := "t1", search := "", documentType := "", includeDeleted := false,
  limit := 0, offset := -1 }

/-- Concrete well-formed list options used to witness the pagination
theorems. -/
def pageOpt : ListOptions := {
  tenantID := "t1", search := "", documentType := "", includeDeleted := false,
  limit := 0, offset := 0 }

/-- The template returned by creating `sampleInput` in the fresh system. -/
def c7t1 : Template :=
  (okTplOf (serviceCreateTemplate sampleInput sysInit)).getD sampleInput

/-- The system after creating `sampleInput` and then running the single
update call `renameCall` against the created template. -/
def c7s2 : Sys := okRunOf (runUpdates "t1" c7t1.templateID [renameCall] sys1)

/-! ## Map and state helper lemmas -/

theorem mapGet_mapSet_self {β : Type} (m : List (String × β)) (k : String)
    (v : β) : mapGet (mapSet m k v) k = some v := by
  induction m with
  | nil => simp [mapGet, mapSet]
  | cons p rest ih =>
      obtain ⟨k', v'⟩ := p
      by_cases h : k' = k
      · simp [mapGet, mapSet, h]
      · simp [mapGet, mapSet, h, ih]

theorem mapGet_mapSet_ne {β : Type} (m : List (String × β)) (k k' : String)
    (v : β) (h : k ≠ k') : mapGet (mapSet m k v) k' = mapGet m k' := by
  induction m with
  | nil => simp [mapGet, mapSet, h]
  | cons p rest ih =>
      obtain ⟨k0, v0⟩ := p
      by_cases h0 : k0 = k
      · subst h0; simp [mapGet, mapSet, h]
      · simp [mapGet, mapSet, h0, ih]

theorem getVersions_setVersions_self (r : RepoState) (id : String)
    (l : List TemplateVersion) : getVersions (setVersions r id l) id = l := by
  simp [getVersions, setVersions, mapGet_mapSet_self]

theorem findTemplate_setVersions (r : RepoState) (id : String)
    (l : List TemplateVersion) (k : String) :
    findTemplate (setVersions r id l) k = findTemplate r k := rfl

theorem getVersions_putTemplate (r : RepoState) (tpl : Template)
    (k : String) : getVersions (putTemplate r tpl) k = getVersions r k := rfl

theorem findTemplate_putTemplate_self (r : RepoState) (tpl : Template) :
    findTemplate (putTemplate r tpl) tpl.templateID = some tpl := by
  simp [findTemplate, putTemplate, mapGet_mapSet_self]

/-! ## Inversion lemmas: what a successful operation implies -/

theorem repoGetTemplate_ok {r : RepoState} {tenantID templateID : String}
    {tpl : Template} (h : repoGetTemplate r tenantID templateID = .ok tpl) :
    findTemplate r templateID = some tpl ∧ tpl.tenantID = tenantID := by
  unfold repoGetTemplate at h
  cases hf : findTemplate r templateID with
  | none => rw [hf] at h; exact absurd h (by simp)
  | some t =>
      rw [hf] at h
      by_cases ht : t.tenantID ≠ tenantID
      · simp [ht] at h
      · simp [ht] at h
        subst h
        exact ⟨rfl, by simpa using ht⟩

theorem repoCreateVersion_ok {r : RepoState} {tenantID : String}
    {v v' : TemplateVersion} {r' : RepoState}
    (h : repoCreateVersion r tenantID v = .ok (v', r')) :
    ∃ tpl, findTemplate r v.templateID = some tpl ∧
      tpl.tenantID = tenantID ∧ v.validate = none ∧ v' = v ∧
      r' = setVersions r v.templateID
        (((getVersions r v.templateID).map
          (fun e => { e with isCurrent := false })) ++ [v]) := by
  unfold repoCreateVersion at h
  cases hf : findTemplate r v.templateID with
  | none => rw [hf] at h; exact absurd h (by simp)
  | some tpl =>
      rw [hf] at h
      by_cases ht : tpl.tenantID ≠ tenantID
      · simp [ht] at h
      · simp only [ht, if_false] at h
        cases hv : v.validate with
        | some msg => rw [hv] at h; exact absurd h (by simp)
        | none =>
            rw [hv] at h
            simp only [Except.ok.injEq, Prod.mk.injEq] at h
            exact ⟨tpl, rfl, by simpa using ht, rfl, h.1.symm, h.2.symm⟩

theorem repoUpdateTemplate_ok {r : RepoState} {tpl tpl' : Template}
    {r' : RepoState} (h : repoUpdateTemplate r tpl = .ok (tpl', r')) :
    ∃ existing, findTemplate r tpl.templateID = some existing ∧
      existing.tenantID = tpl.tenantID ∧ tpl' = tpl ∧
      r' = putTemplate r tpl := by
  unfold repoUpdateTemplate at h
  cases hf : findTemplate r tpl.templateID with
  | none => rw [hf] at h; exact absurd h (by simp)
  | some existing =>
      rw [hf] at h
      by_cases ht : existing.tenantID ≠ tpl.tenantID
      · simp [ht] at h
      · simp only [ht, if_false, Except.ok.injEq, Prod.mk.injEq] at h
        exact ⟨existing, rfl, by simpa using ht, h.1.symm, h.2.symm⟩

theorem repoCreateTemplate_ok {r : RepoState} {tpl tpl' : Template}
    {r' : RepoState} (h : repoCreateTemplate r tpl = .ok (tpl', r')) :
    findTemplate r tpl.templateID = none ∧ tpl' = tpl ∧
      r' = { r with templates := mapSet r.templates tpl.templateID tpl } := by
  unfold repoCreateTemplate at h
  cases hf : findTemplate r tpl.templateID with
  | some t => rw [hf] at h; exact absurd h (by simp)
  | none =>
      rw [hf] at h
      simp only [Except.ok.injEq, Prod.mk.injEq] at h
      exact ⟨rfl, h.1.symm, h.2.symm⟩

theorem filter_isCurrent_clear (l : List TemplateVersion) :
    (l.map (fun e => { e with isCurrent := false })).filter
      (fun e => e.isCurrent) = [] := by
  induction l with
  | nil => rfl
  | cons h rest ih => simp [List.filter, ih]

/-- C2 (amended): a successful `CreateVersion` appends the given entry
unchanged after clearing `is_current` on every pre-existing entry of that
template; the resulting history therefore has exactly one current entry when
the input was marked current and zero current entries when it was not —
`CreateVersion` does not itself force the appended entry to be current. -/
theorem createVersion_clears_and_appends
    {r : RepoState} {tenantID : String} {v v' : TemplateVersion}
    {r' : RepoState} (h : repoCreateVersion r tenantID v = .ok (v', r')) :
    v' = v ∧
    getVersions r' v.templateID =
      ((getVersions r v.templateID).map
        (fun e => { e with isCurrent := false })) ++ [v] ∧
    ((getVersions r' v.templateID).filter (fun e => e.isCurrent)).length =
      (if v.isCurrent then 1 else 0) := by
  obtain ⟨tpl, _, _, _, hv', hr'⟩ := repoCreateVersion_ok h
  subst hr'
  refine ⟨hv', getVersions_setVersions_self .., ?_⟩
  rw [getVersions_setVersions_self, List.filter_append,
    filter_isCurrent_clear]
  cases hc : v.isCurrent <;> simp [List.filter, hc]

/-- C2 (witness): the amended theorem applied to the concrete repository
`cRepo` and the current-marked input `{cE1 with versionNumber := 2}`. -/
theorem createVersion_clears_and_appends_witness :
    ({ cE1 with versionNumber := 2 } : TemplateVersion) = { cE1 with versionNumber := 2 } ∧
    getVersions (setVersions cRepo "T"
        (((getVersions cRepo "T").map (fun e => { e with isCurrent := false })) ++
          [{ cE1 with versionNumber := 2 }])) "T" =
      ((getVersions cRepo "T").map
        (fun e => { e with isCurrent := false })) ++ [{ cE1 with versionNumber := 2 }] ∧
    ((getVersions (setVersions cRepo "T"
        (((getVersions cRepo "T").map (fun e => { e with isCurrent := false })) ++
          [{ cE1 with versionNumber := 2 }])) "T").filter
        (fun e => e.isCurrent)).length =
      (if ({ cE1 with versionNumber := 2 } : TemplateVersion).isCurrent then 1 else 0) :=
  @createVersion_clears_and_appends cRepo "t1"
    { cE1 with versionNumber := 2 } { cE1 with versionNumber := 2 }
    (setVersions cRepo "T"
      (((getVersions cRepo "T").map (fun e => { e with isCurrent := false })) ++
        [{ cE1 with versionNumber := 2 }]))
    (by rfl)

/-- C2 (counterexample): a concrete successful `CreateVersion` call whose
input is not marked current — exactly what the copy-versions loop of
`TemplateService.DuplicateTemplate` passes for superseded source entries —
ends with the appended entry not current and zero current entries, although
one current entry existed beforehand.  This refutes "the newly appended
entry is current" and "no successful Append leaves the history with zero
current entries once at least one entry exists". -/
theorem createVersion_not_current_counterexample :
    ((getVersions cRepo "T").filter (fun e => e.isCurrent)).length = 1 ∧
    (repoCreateVersion cRepo "t1" cV2).toOption.map
      (fun p => (p.1.isCurrent,
        ((getVersions p.2 "T").filter (fun e => e.isCurrent)).length)) =
      some (false, 0) := by
  constructor
  · rfl
  · rfl

/-- C6: every tenant-scoped repository operation — Get, Update, SoftDelete,
Restore, Duplicate, ListVersions, CreateVersion, RestoreVersion,
CompareVersions — invoked under a tenant that does not own the stored
template fails with Not-Found (never a different error), returning neither
the template nor any new state, so the template is neither leaked nor
mutated. -/
theorem crossTenant_notFound
    (r : RepoState) (tenantID templateID : String) (tpl : Template)
    (hf : findTemplate r templateID = some tpl)
    (hne : tpl.tenantID ≠ tenantID) :
    repoGetTemplate r tenantID templateID = .error .notFound ∧
    (∀ t : Template, t.templateID = templateID → t.tenantID = tenantID →
      repoUpdateTemplate r t = .error .notFound) ∧
    (∀ now, repoSoftDeleteTemplate r tenantID templateID now =
      .error .notFound) ∧
    repoRestoreTemplate r tenantID templateID = .error .notFound ∧
    (∀ opt id1 id2 now,
      repoDuplicateTemplate r tenantID templateID opt id1 id2 now =
        .error .notFound) ∧
    repoListVersions r tenantID templateID = .error .notFound ∧
    (∀ v : TemplateVersion, v.templateID = templateID →
      repoCreateVersion r tenantID v = .error .notFound) ∧
    (∀ n now, repoRestoreVersion r tenantID templateID n now =
      .error .notFound) ∧
    (∀ left right, repoCompareVersions r tenantID templateID left right =
      .error .notFound) := by
  refine ⟨?_, ?_, ?_, ?_, ?_, ?_, ?_, ?_, ?_⟩
  · unfold repoGetTemplate; rw [hf]; simp [hne]
  · intro t hid htid
    unfold repoUpdateTemplate
    rw [hid, hf]
    have : tpl.tenantID ≠ t.tenantID := by rw [htid]; exact hne
    simp [this]
  · intro now; unfold repoSoftDeleteTemplate; rw [hf]; simp [hne]
  · unfold repoRestoreTemplate; rw [hf]; simp [hne]
  · intro opt id1 id2 now
    unfold repoDuplicateTemplate; rw [hf]; simp [hne]
  · unfold repoListVersions; rw [hf]; simp [hne]
  · intro v hid
    unfold repoCreateVersion; rw [hid, hf]; simp [hne]
  · intro n now; unfold repoRestoreVersion; rw [hf]; simp [hne]
  · intro left right; unfold repoCompareVersions; rw [hf]; simp [hne]

/-- C6 (witness): the isolation theorem applied to the concrete repository
`cRepo`, whose template `T` belongs to tenant `t1`, accessed as tenant
`t2`. -/
theorem crossTenant_notFound_witness :
    repoGetTemplate cRepo "t2" "T" = .error .notFound ∧
    (∀ t : Template, t.templateID = "T" → t.tenantID = "t2" →
      repoUpdateTemplate cRepo t = .error .notFound) ∧
    (∀ now, repoSoftDeleteTemplate cRepo "t2" "T" now = .error .notFound) ∧
    repoRestoreTemplate cRepo "t2" "T" = .error .notFound ∧
    (∀ opt id1 id2 now,
      repoDuplicateTemplate cRepo "t2" "T" opt id1 id2 now =
        .error .notFound) ∧
    repoListVersions cRepo "t2" "T" = .error .notFound ∧
    (∀ v : TemplateVersion, v.templateID = "T" →
      repoCreateVersion cRepo "t2" v = .error .notFound) ∧
    (∀ n now, repoRestoreVersion cRepo "t2" "T" n now = .error .notFound) ∧
    (∀ left right, repoCompareVersions cRepo "t2" "T" left right =
      .error .notFound) :=
  crossTenant_notFound cRepo "t2" "T" cT (by rfl) (by decide)

theorem mem_insertByUpdatedDesc {a t : Template} {l : List Template} :
    a ∈ insertByUpdatedDesc t l ↔ a = t ∨ a ∈ l := by
  induction l with
  | nil => simp [insertByUpdatedDesc]
  | cons h rest ih =>
      by_cases hc : h.updatedAt > t.updatedAt
      · simp only [insertByUpdatedDesc, if_pos hc, List.mem_cons, ih]
        tauto
      · simp only [insertByUpdatedDesc, if_neg hc, List.mem_cons]

theorem mem_sortByUpdatedDesc {a : Template} {l : List Template} :
    a ∈ sortByUpdatedDesc l ↔ a ∈ l := by
  induction l with
  | nil => simp [sortByUpdatedDesc]
  | cons h rest ih => simp [sortByUpdatedDesc, mem_insertByUpdatedDesc, ih]

/-- C5 (amended): a soft-deleted template is excluded from listings when
`include_deleted` is false, and `UpdateTemplate` on it fails with the wrapped
Invalid-Input error, returning no new state; the deletion marker is, however,
not checked by the other mutating operations (SoftDelete, Duplicate,
CreateVersion, RestoreVersion), which can succeed on a soft-deleted
template. -/
theorem softDeleted_excluded_and_update_rejected
    (s : Sys) (tenantID templateID : String) (tpl : Template) (d : Nat)
    (hf : findTemplate s.repo templateID = some tpl)
    (ht : tpl.tenantID = tenantID)
    (hd : tpl.deletedAt = some d) :
    (∀ f updatedBy changeSummary,
      serviceUpdateTemplate tenantID templateID f updatedBy changeSummary s =
        .error (.invalidInput "template is deleted")) ∧
    (∀ opt : ListOptions, opt.includeDeleted = false →
      tpl ∉ listMatching s.repo opt) := by
  constructor
  · intro f updatedBy changeSummary
    unfold serviceUpdateTemplate repoGetTemplate
    rw [hf]
    simp [ht, hd]
  · intro opt hopt hmem
    unfold listMatching at hmem
    rw [mem_sortByUpdatedDesc] at hmem
    have := List.of_mem_filter hmem
    unfold matchesOpt at this
    simp only [hopt, Bool.false_or, Bool.and_eq_true, decide_eq_true_eq] at this
    rw [hd] at this
    exact absurd this.1.1.2 (by simp)

/-- C5 (witness): the amended theorem applied to `sysDel` — the concrete
system whose template `id-0` was soft-deleted at tick 10 — under its owning
tenant `t1`. -/
theorem softDeleted_excluded_and_update_rejected_witness :
    (∀ f updatedBy changeSummary,
      serviceUpdateTemplate "t1" "id-0" f updatedBy changeSummary
        { repo := sysDel, nextID := 2, clock := 1 } =
        .error (.invalidInput "template is deleted")) ∧
    (∀ opt : ListOptions, opt.includeDeleted = false →
      sysDelTpl ∉ listMatching sysDel opt) :=
  softDeleted_excluded_and_update_rejected
    { repo := sysDel, nextID := 2, clock := 1 } "t1" "id-0"
    sysDelTpl 10 (by rfl) (by rfl) (by rfl)

/-- C5 (counterexample): `RestoreVersion` — a mutating operation other than
restore-from-soft-delete — succeeds on the soft-deleted template `id-0` and
changes state: the stored template remains soft-deleted (`deleted_at = 10`)
but its version counter moves from 1 to 2 and its history grows.  This
refutes "every mutating operation other than restore fails without changing
state" for soft-deleted records. -/
theorem restoreVersion_on_softDeleted_counterexample :
    ((findTemplate sysDel "id-0").map (fun t => (t.deletedAt, t.version)) =
      some (some 10, 1)) ∧
    (repoRestoreVersion sysDel "t1" "id-0" 1 20).toOption.map
      (fun p => ((findTemplate p.2 "id-0").map
        (fun t => (t.deletedAt, t.version)),
        (getVersions p.2 "id-0").length)) =
      some (some (some 10, 2), 2) := by
  constructor
  · rfl
  · rfl

/-- C8 (amended): when every field other than the name satisfies validation,
`Validate` accepts a template if and only if the trimmed name is at least 3
bytes long AND the *untrimmed* name is at most 100 bytes long: the upper
bound of the source checks `len(t.Name)` before trimming, so surrounding
whitespace does count against the maximum (though not toward the minimum). -/
theorem validate_accepts_iff_name_bounds (t : Template)
    (h1 : t.tenantID ≠ "")
    (h2 : goLen t.description ≤ 500)
    (h3 : t.documentType = "warranty" ∨ t.documentType = "instruction" ∨
      t.documentType = "certificate" ∨ t.documentType = "label")
    (h4 : t.pageSize = "A4" ∨ t.pageSize = "A5" ∨ t.pageSize = "Letter")
    (h5 : t.orientation = "portrait" ∨ t.orientation = "landscape")
    (h6 : t.jsonSchemaURL ≠ "")
    (h7 : t.createdBy ≠ "")
    (h8 : t.updatedBy ≠ "") :
    t.validate = none ↔
      (3 ≤ goLen (goTrimSpace t.name) ∧ goLen t.name ≤ 100) := by
  unfold Template.validate
  rw [if_neg h1]
  by_cases hname : goLen (goTrimSpace t.name) < 3 ∨ goLen t.name > 100
  · rw [if_pos hname]
    simp only [reduceCtorEq, false_iff]
    omega
  · rw [if_neg hname, if_neg (by omega : ¬goLen t.description > 500),
      if_neg (not_not_intro h3), if_neg (not_not_intro h4),
      if_neg (not_not_intro h5), if_neg h6, if_neg h7, if_neg h8]
    simp only [true_iff]
    omega

/-- C8 (witness): the amended theorem applied to the concrete template `cT`
(name `"Warranty EU"`, all other fields valid). -/
theorem validate_accepts_iff_name_bounds_witness :
    cT.validate = none ↔
      (3 ≤ goLen (goTrimSpace cT.name) ∧ goLen cT.name ≤ 100) :=
  validate_accepts_iff_name_bounds cT (by decide) (by decide)
    (by left; rfl) (by left; rfl) (by left; rfl)
    (by decide) (by decide) (by decide)

/-- C8 (counterexample): `paddedTpl`'s name is `"abc"` followed by 98
spaces — its trimmed length 3 lies in `[3,100]` and every other field
satisfies validation (witnessed by the same template with name `"abc"`
passing), yet `Validate` rejects it, because the untrimmed length 101
exceeds the upper bound.  This refutes "a name whose trimmed length is
within [3,100] is accepted regardless of surrounding whitespace". -/
theorem validate_trimmed_name_counterexample :
    3 ≤ goLen (goTrimSpace paddedTpl.name) ∧
    goLen (goTrimSpace paddedTpl.name) ≤ 100 ∧
    ({ paddedTpl with name := "abc" } : Template).validate = none ∧
    paddedTpl.validate =
      some "name must be between 3 and 100 characters" := by
  refine ⟨by decide, by decide, by rfl, by rfl⟩

/-- C9: for a non-negative offset, `ListTemplates` follows offset+limit
semantics: a limit ≤ 0 returns all remaining matching templates from the
offset, and an offset at or beyond the result length yields an empty page
and no error (no panic). -/
theorem listTemplates_pagination (r : RepoState) (opt : ListOptions)
    (hoff : 0 ≤ opt.offset) :
    (opt.limit ≤ 0 →
      repoListTemplates r opt =
        some ((listMatching r opt).drop opt.offset.toNat)) ∧
    (((listMatching r opt).length : Int) ≤ opt.offset →
      repoListTemplates r opt = some []) := by
  unfold repoListTemplates paginate goSlice
  constructor
  · intro hlim
    by_cases h1 : opt.offset > ((listMatching r opt).length : Int)
    · rw [if_pos h1]
      have : (listMatching r opt).length ≤ opt.offset.toNat := by omega
      rw [List.drop_eq_nil_of_le this]
    · rw [if_neg h1]
      simp only [if_pos (Or.inl hlim)]
      have hcond : 0 ≤ opt.offset ∧
          opt.offset ≤ ((listMatching r opt).length : Int) ∧
          ((listMatching r opt).length : Int) ≤
            ((listMatching r opt).length : Int) :=
        ⟨hoff, by omega, le_refl _⟩
      rw [if_pos hcond]
      congr 1
      apply List.take_of_length_le
      rw [List.length_drop]
      omega
  · intro hlen
    by_cases h1 : opt.offset > ((listMatching r opt).length : Int)
    · rw [if_pos h1]
    · rw [if_neg h1]
      have heq : opt.offset = ((listMatching r opt).length : Int) := by omega
      have hc : opt.limit ≤ 0 ∨
          opt.offset + opt.limit > ((listMatching r opt).length : Int) := by
        omega
      simp only [if_pos hc]
      have hcond : 0 ≤ opt.offset ∧
          opt.offset ≤ ((listMatching r opt).length : Int) ∧
          ((listMatching r opt).length : Int) ≤
            ((listMatching r opt).length : Int) :=
        ⟨hoff, by omega, le_refl _⟩
      rw [if_pos hcond]
      have : (((listMatching r opt).length : Int) - opt.offset).toNat = 0 := by
        omega
      rw [this, List.take_zero]

/-- C9 (witness): the pagination theorem applied to `cRepo` with
`pageOpt` (offset 0, limit 0): the page is the whole matching list, and the
empty-page clause holds vacuously at this length. -/
theorem listTemplates_pagination_witness :
    (pageOpt.limit ≤ 0 →
      repoListTemplates cRepo pageOpt =
        some ((listMatching cRepo pageOpt).drop pageOpt.offset.toNat)) ∧
    (((listMatching cRepo pageOpt).length : Int) ≤ pageOpt.offset →
      repoListTemplates cRepo pageOpt = some []) :=
  listTemplates_pagination cRepo pageOpt (by decide)

/-- C10: `ListTemplates` is total exactly on non-negative offsets: every
call with `Offset ≥ 0` produces a (possibly empty) page, while the concrete
call on `cRepo` (one matching template) with `Offset = -1` reaches the slice
expression `result[start:end]` with `start = -1 < 0` — only `start >
len(result)` is guarded — and panics (`none`). -/
theorem listTemplates_offset_totality :
    (∀ (r : RepoState) (opt : ListOptions), 0 ≤ opt.offset →
      ∃ page, repoListTemplates r opt = some page) ∧
    (negOffsetOpt.offset < 0 ∧
      1 ≤ (listMatching cRepo negOffsetOpt).length ∧
      repoListTemplates cRepo negOffsetOpt = none) := by
  constructor
  · intro r opt hoff
    unfold repoListTemplates paginate goSlice
    by_cases h1 : opt.offset > ((listMatching r opt).length : Int)
    · rw [if_pos h1]; exact ⟨[], rfl⟩
    · rw [if_neg h1]
      by_cases h2 : opt.limit ≤ 0 ∨
          opt.offset + opt.limit > ((listMatching r opt).length : Int)
      · simp only [if_pos h2]
        have hcond : 0 ≤ opt.offset ∧
            opt.offset ≤ ((listMatching r opt).length : Int) ∧
            ((listMatching r opt).length : Int) ≤
              ((listMatching r opt).length : Int) :=
          ⟨hoff, by omega, le_refl _⟩
        rw [if_pos hcond]
        exact ⟨_, rfl⟩
      · simp only [if_neg h2]
        have hcond : 0 ≤ opt.offset ∧
            opt.offset ≤ opt.offset + opt.limit ∧
            opt.offset + opt.limit ≤ ((listMatching r opt).length : Int) := by
          omega
        rw [if_pos hcond]
        exact ⟨_, rfl⟩
  · exact ⟨by decide, by decide, by decide⟩

/-- C10 (witness): the totality half applied to `cRepo` and `pageOpt`
(offset 0). -/
theorem listTemplates_offset_totality_witness :
    ∃ page, repoListTemplates cRepo pageOpt = some page :=
  listTemplates_offset_totality.1 cRepo pageOpt (by decide)

/-- C1 (code contradicts the invariant): in the reachable state `sys2`
(create `sampleInput`, then one accepted update — history `[number 1
superseded, number 2 current]`), `RestoreVersion(t1, id-0, 1)` succeeds and
leaves TWO entries with `is_current = true` (numbers 2 and 3):
`RestoreVersion` appends its copy marked current without clearing the flag
on the existing entries, unlike `CreateVersion`'s clearing loop. -/
theorem restoreVersion_two_current :
    ((getVersions sys2.repo "id-0").filter (fun e => e.isCurrent)).length
      = 1 ∧
    (repoRestoreVersion sys2.repo "t1" "id-0" 1 sys2.clock).toOption.map
      (fun p => ((getVersions p.2 "id-0").filter
        (fun e => e.isCurrent)).map (fun e => e.versionNumber)) =
      some [2, 3] := by
  exact ⟨rfl, rfl⟩

/-- C3 (code contradicts "fresh identifier"): in the same reachable state
`sys2`, `RestoreVersion(t1, id-0, 1)` does move the version counter forward
(2 → 3), stamps the new entry with the template's new `updated_at`, the new
number and the restored schema URL, marks it current — but the appended
entry reuses the restored entry's `version_id` (`id-1`), which already
occurs in the history, instead of a fresh identifier. -/
theorem restoreVersion_reuses_identifier :
    (getVersions sys2.repo "id-0").map (fun e => e.versionID) =
      ["id-1", "id-2"] ∧
    (repoRestoreVersion sys2.repo "t1" "id-0" 1 sys2.clock).toOption.map
      (fun p => (p.1.versionID, p.1.versionNumber, p.1.isCurrent,
        p.1.jsonSchemaURL, p.1.createdAt,
        (findTemplate p.2 "id-0").map (fun t => (t.version, t.updatedAt)))) =
      some ("id-1", 3, true, "s3://schemas/v1.json", 2, some (3, 2)) := by
  exact ⟨rfl, rfl⟩

/-- C4 (counterexample): duplicating `id-0` from the reachable state `sys2`
with `copy_versions = true` yields clone `id-3` whose history carries the
version numbers `[1, 1, 1]` — the synthetic "duplicated from" entry is
numbered 1, the copied superseded source entry keeps its number 1, and the
copied current source entry is renumbered to the clone's version 1.  Version
numbers within a history are therefore not unique, refuting the claim for
clones produced with `copy_versions = true`. -/
theorem duplicate_copyVersions_duplicate_numbers :
    (serviceDuplicateTemplate "t1" "id-0" dupOpt sys2).toOption.map
      (fun p => (p.1.templateID,
        (getVersions p.2.repo p.1.templateID).map
          (fun e => e.versionNumber))) = some ("id-3", [1, 1, 1]) ∧
    ¬ ([1, 1, 1] : List Int).Nodup := by
  exact ⟨rfl, by decide⟩

theorem map_versionNumber_clear (l : List TemplateVersion) :
    (l.map (fun e => { e with isCurrent := false })).map
      (fun e => e.versionNumber) = l.map (fun e => e.versionNumber) := by
  induction l with
  | nil => rfl
  | cons h rest ih => simp [ih]

theorem range_map_succ (n : Nat) :
    (List.range (n + 1)).map (fun (i : Nat) => (i : Int) + 1) =
      (List.range n).map (fun (i : Nat) => (i : Int) + 1) ++ [(n : Int) + 1] := by
  simp [List.range_succ]

/-- A successful `TemplateService.CreateTemplate` from a state with no
orphan histories establishes the consistency invariant at version 1. -/
theorem serviceCreateTemplate_inv {tpl0 : Template} {s : Sys}
    {t1 : Template} {s1 : Sys}
    (hno : NoOrphanHistories s.repo)
    (h : serviceCreateTemplate tpl0 s = .ok (t1, s1)) :
    TplInv t1.templateID t1.tenantID 1 s1 := by
  simp only [serviceCreateTemplate] at h
  split at h
  · simp at h
  · rename_i hv
    split at h
    · simp at h
    · rename_i created r1 hcr
      obtain ⟨hnone, hceq, hr1⟩ := repoCreateTemplate_ok hcr
      split at h
      · simp at h
      · rename_i v2 r2 hcv
        obtain ⟨tplX, hfx, htx, hvv, hveq, hr2⟩ := repoCreateVersion_ok hcv
        simp only [Except.ok.injEq, Prod.mk.injEq] at h
        obtain ⟨ht1, hs1⟩ := h
        subst ht1
        subst hceq
        subst hveq
        subst hr1
        subst hr2
        subst hs1
        have hempty : getVersions s.repo (mkID s.nextID) = [] := hno _ hnone
        simp only [getVersions] at hempty
        refine ⟨_, [],
          { versionID := mkID (s.nextID + 1), templateID := mkID s.nextID,
            versionNumber := 1, changeSummary := "initial version",
            jsonSchemaURL := tpl0.jsonSchemaURL, createdBy := tpl0.createdBy,
            createdAt := s.clock, isCurrent := true },
          ?_, rfl, rfl, ?_, ?_, ?_, rfl, ?_, ?_⟩
        · simp only [findTemplate_setVersions]
          exact mapGet_mapSet_self _ _ _
        · norm_num
        · rw [getVersions_setVersions_self]
          simp [getVersions, hempty]
        · intro e he
          simp at he
        · norm_num
        · rw [getVersions_setVersions_self]
          simp [getVersions, hempty, List.range_succ]

/-- What a successful `TemplateService.UpdateTemplate` implies: the live
template was found under the caller's tenant and not soft-deleted, the
mutation succeeded, the bumped-and-restamped result validated, and the final
state replaces the stored template and appends the current-marked history
entry on top of the cleared history. -/
theorem serviceUpdateTemplate_ok {tenantID templateID : String}
    {f : Template → Except RepoError Template} {ub cs : String}
    {s s' : Sys} {t' : Template}
    (h : serviceUpdateTemplate tenantID templateID f ub cs s = .ok (t', s')) :
    ∃ tpl m,
      findTemplate s.repo templateID = some tpl ∧
      tpl.tenantID = tenantID ∧
      tpl.deletedAt = none ∧
      f tpl = .ok m ∧
      t' =
        { m with
            version := m.version + 1, updatedBy := ub,
            updatedAt := s.clock } ∧
      t'.validate = none ∧
      (∃ ex, findTemplate s.repo t'.templateID = some ex ∧
        ex.tenantID = t'.tenantID) ∧
      t'.tenantID = tenantID ∧
      s'.repo = setVersions (putTemplate s.repo t') t'.templateID
        (((getVersions s.repo t'.templateID).map
          (fun e => { e with isCurrent := false })) ++
         [{ versionID := mkID s.nextID, templateID := t'.templateID,
            versionNumber := t'.version, jsonSchemaURL := t'.jsonSchemaURL,
            changeSummary := cs, createdBy := ub, createdAt := t'.updatedAt,
            isCurrent := true }]) ∧
      s'.nextID = s.nextID + 1 ∧ s'.clock = s.clock + 1 := by
  simp only [serviceUpdateTemplate] at h
  split at h
  · simp at h
  · rename_i tpl hg
    obtain ⟨hftpl, htpl⟩ := repoGetTemplate_ok hg
    split at h
    · simp at h
    · rename_i hdel
      split at h
      · simp at h
      · rename_i m hm
        split at h
        · simp at h
        · rename_i hvOK
          split at h
          · simp at h
          · rename_i updated r1 hu
            obtain ⟨ex, hex, hext, hueq, hr1⟩ := repoUpdateTemplate_ok hu
            split at h
            · simp at h
            · rename_i v2 r2 hcv
              obtain ⟨tplX, hfX, htX, hvv, hv2, hr2⟩ :=
                repoCreateVersion_ok hcv
              simp only [Except.ok.injEq, Prod.mk.injEq] at h
              obtain ⟨ht', hs'⟩ := h
              subst ht'
              subst hs'
              refine ⟨tpl, m, hftpl, htpl, by simpa using hdel, hm, hueq,
                ?_, ?_, ?_, ?_, rfl, rfl⟩
              · rw [hueq]; exact hvOK
              · exact ⟨ex, by rw [hueq]; exact hex, by rw [hueq]; exact hext⟩
              · have hk : updated.templateID = m.templateID := by rw [hueq]
                have hfX' : findTemplate (putTemplate s.repo updated)
                    m.templateID = some tplX := by
                  rw [hr1, ← hueq] at hfX
                  exact hfX
                have h7 := findTemplate_putTemplate_self s.repo updated
                rw [hk] at h7
                have hxu : tplX = updated :=
                  Option.some.inj (hfX'.symm.trans h7)
                rw [← hxu]
                exact htX
              · show r2 = _
                rw [hr2, hr1, hueq]
                rfl

/-- One accepted `UpdateTemplate` whose mutation preserves the version
counter and identifier advances the consistency invariant from `n` to
`n + 1`. -/
theorem serviceUpdateTemplate_inv {tenantID tid templateID : String}
    {f : Template → Except RepoError Template} {ub cs : String}
    {s s' : Sys} {t' : Template} {n : Nat}
    (hinv : TplInv templateID tid n s) (hf : versionPreserving f)
    (h : serviceUpdateTemplate tenantID templateID f ub cs s = .ok (t', s')) :
    TplInv templateID tid (n + 1) s' := by
  obtain ⟨t, pre, last, hft, hid, htid, hver, hhist, hpre, hlc, hln, hnums⟩ :=
    hinv
  obtain ⟨tpl, m, hftpl, htpl, hdel, hm, ht'eq, hval, ⟨ex, hex, hext⟩,
    htten, hrepo, hnid, hclk⟩ := serviceUpdateTemplate_ok h
  have htpl_t : tpl = t := by
    rw [hftpl] at hft
    exact Option.some.inj hft
  obtain ⟨hmv, hmid⟩ := hf tpl m hm
  have hkey : t'.templateID = templateID := by
    rw [ht'eq]
    show m.templateID = templateID
    rw [hmid, htpl_t, hid]
  have hv' : t'.version = (n : Int) + 1 := by
    rw [ht'eq]
    show m.version + 1 = (n : Int) + 1
    rw [hmv, htpl_t, hver]
  have hex_t : ex = t := by
    rw [hkey] at hex
    rw [hex] at hft
    exact Option.some.inj hft
  have htt' : t'.tenantID = tid := by
    rw [← hext, hex_t, htid]
  have hh : getVersions s'.repo templateID =
      ((pre ++ [last]).map (fun e => { e with isCurrent := false })) ++
        [{ versionID := mkID s.nextID, templateID := t'.templateID,
           versionNumber := t'.version, jsonSchemaURL := t'.jsonSchemaURL,
           changeSummary := cs, createdBy := ub, createdAt := t'.updatedAt,
           isCurrent := true }] := by
    rw [← hkey, hrepo, getVersions_setVersions_self, hkey, hhist]
  refine ⟨t',
    (pre ++ [last]).map (fun e => { e with isCurrent := false }),
    { versionID := mkID s.nextID, templateID := t'.templateID,
      versionNumber := t'.version, jsonSchemaURL := t'.jsonSchemaURL,
      changeSummary := cs, createdBy := ub, createdAt := t'.updatedAt,
      isCurrent := true },
    ?_, hkey, htt', ?_, hh, ?_, rfl, ?_, ?_⟩
  · rw [hrepo, findTemplate_setVersions, ← hkey]
    exact findTemplate_putTemplate_self _ _
  · rw [hv']
    push_cast
    ring
  · intro e he
    obtain ⟨e0, _, he0⟩ := List.mem_map.mp he
    rw [← he0]
  · show t'.version = ((n + 1 : Nat) : Int)
    rw [hv']
    push_cast
    ring
  · rw [hh, List.map_append, map_versionNumber_clear, ← hhist, hnums,
      range_map_succ]
    congr 1
    show [t'.version] = _
    rw [hv']

/-- A run of accepted updates advances the consistency invariant by its
length. -/
theorem runUpdates_inv {tenantID tid templateID : String}
    (calls : List UpdateCall) :
    ∀ (n : Nat) (s s' : Sys),
    TplInv templateID tid n s →
    (∀ c ∈ calls, versionPreserving c.mutate) →
    runUpdates tenantID templateID calls s = .ok s' →
    TplInv templateID tid (n + calls.length) s' := by
  induction calls with
  | nil =>
      intro n s s' hinv _ hr
      simp only [runUpdates, Except.ok.injEq] at hr
      subst hr
      simpa using hinv
  | cons c rest ih =>
      intro n s s' hinv hvp hr
      simp only [runUpdates] at hr
      split at hr
      · simp at hr
      · rename_i p s1 hstep
        have hstep_inv :=
          serviceUpdateTemplate_inv hinv (hvp c (by simp)) hstep
        have hrest := ih (n + 1) s1 s' hstep_inv
          (fun c' hc' => hvp c' (by simp [hc'])) hr
        have harith : n + (c :: rest).length = (n + 1) + rest.length := by
          simp [List.length_cons]
          omega
        rw [harith]
        exact hrest

/-- C7: after a valid Create and any sequence of N accepted Updates whose
mutations leave the version counter (and identifier) unchanged, the template's
version equals 1 + N, exactly one history entry is current, and every current
entry carries the template's current version number. -/
theorem create_then_updates_single_current
    (tpl0 : Template) (s0 : Sys) (t1 : Template) (s1 : Sys)
    (tenantID : String) (calls : List UpdateCall) (s2 : Sys)
    (hno : NoOrphanHistories s0.repo)
    (hc : serviceCreateTemplate tpl0 s0 = .ok (t1, s1))
    (hvp : ∀ c ∈ calls, versionPreserving c.mutate)
    (hr : runUpdates tenantID t1.templateID calls s1 = .ok s2) :
    ∃ t, findTemplate s2.repo t1.templateID = some t ∧
      t.version = 1 + (calls.length : Int) ∧
      ((getVersions s2.repo t1.templateID).filter
        (fun e => e.isCurrent)).length = 1 ∧
      ∀ e ∈ getVersions s2.repo t1.templateID,
        e.isCurrent = true → e.versionNumber = t.version := by
  have h1 := serviceCreateTemplate_inv hno hc
  have h2 := runUpdates_inv calls 1 s1 s2 h1 hvp hr
  obtain ⟨t, pre, last, hft, hid, htid, hver, hhist, hpre, hlc, hln, hnums⟩ :=
    h2
  refine ⟨t, hft, ?_, ?_, ?_⟩
  · rw [hver]
    push_cast
    ring
  · rw [hhist, List.filter_append]
    have hnil : pre.filter (fun e => e.isCurrent) = [] := by
      rw [List.filter_eq_nil_iff]
      intro a ha
      simp [hpre a ha]
    rw [hnil]
    simp [List.filter, hlc]
  · intro e he heq
    rw [hhist] at he
    rcases List.mem_append.mp he with h | h
    · exact absurd heq (by rw [hpre e h]; simp)
    · have heq' : e = last := by simpa using h
      rw [heq', hln, hver]

/-- C7 (witness): the theorem applied to the concrete scenario — create
`sampleInput`, then one accepted renaming update. -/
theorem create_then_updates_single_current_witness :
    ∃ t, findTemplate c7s2.repo c7t1.templateID = some t ∧
      t.version = 1 + (([renameCall] : List UpdateCall).length : Int) ∧
      ((getVersions c7s2.repo c7t1.templateID).filter
        (fun e => e.isCurrent)).length = 1 ∧
      ∀ e ∈ getVersions c7s2.repo c7t1.templateID,
        e.isCurrent = true → e.versionNumber = t.version := by
  refine create_then_updates_single_current sampleInput sysInit c7t1 sys1
    "t1" [renameCall] c7s2 (fun k _ => rfl) (by rfl) ?_ (by rfl)
  intro c hc
  have hceq : c = renameCall := by simpa using hc
  subst hceq
  intro t t' h
  simp only [renameCall, renameMut, Except.ok.injEq] at h
  subst h
  exact ⟨rfl, rfl⟩

/-- C4 (amended): for templates whose history is produced by a valid Create
followed by accepted Updates (no duplication with `copy_versions`), the
history's version numbers are exactly `1, …, version` and in particular are
unique — the 1:1 correspondence the claim asserts.  The claim fails for
clones produced by `DuplicateTemplate` with `copy_versions = true`. -/
theorem create_then_updates_unique_numbers
    (tpl0 : Template) (s0 : Sys) (t1 : Template) (s1 : Sys)
    (tenantID : String) (calls : List UpdateCall) (s2 : Sys)
    (hno : NoOrphanHistories s0.repo)
    (hc : serviceCreateTemplate tpl0 s0 = .ok (t1, s1))
    (hvp : ∀ c ∈ calls, versionPreserving c.mutate)
    (hr : runUpdates tenantID t1.templateID calls s1 = .ok s2) :
    (getVersions s2.repo t1.templateID).map (fun e => e.versionNumber) =
      (List.range (1 + calls.length)).map (fun (i : Nat) => (i : Int) + 1) ∧
    ((getVersions s2.repo t1.templateID).map
      (fun e => e.versionNumber)).Nodup := by
  have h1 := serviceCreateTemplate_inv hno hc
  have h2 := runUpdates_inv calls 1 s1 s2 h1 hvp hr
  obtain ⟨t, pre, last, hft, hid, htid, hver, hhist, hpre, hlc, hln, hnums⟩ :=
    h2
  refine ⟨hnums, ?_⟩
  rw [hnums]
  refine List.Nodup.map ?_ (List.nodup_range _)
  intro a b hab
  simp only at hab
  omega

/-- C4 (amended, witness): the amended theorem applied to the same concrete
create-then-update scenario. -/
theorem create_then_updates_unique_numbers_witness :
    (getVersions c7s2.repo c7t1.templateID).map (fun e => e.versionNumber) =
      (List.range (1 + ([renameCall] : List UpdateCall).length)).map
        (fun (i : Nat) => (i : Int) + 1) ∧
    ((getVersions c7s2.repo c7t1.templateID).map
      (fun e => e.versionNumber)).Nodup := by
  refine create_then_updates_unique_numbers sampleInput sysInit c7t1 sys1
    "t1" [renameCall] c7s2 (fun k _ => rfl) (by rfl) ?_ (by rfl)
  intro c hc
  have hceq : c = renameCall := by simpa using hc
  subst hceq
  intro t t' h
  simp only [renameCall, renameMut, Except.ok.injEq] at h
  subst h
  exact ⟨rfl, rfl⟩
